import Mathlib

/-
Verification development for the playground page's typed-variable logic.

The embedded code is the client page component: its variable-entry editing
operations (updateVariableField and friends), the per-entry conversion
function parseVariableValue, the submit-time aggregation loop inside
runPrompt, the runPrompt lifecycle itself, and the feedback success
callback.  JavaScript runtime primitives that the code calls
(String.prototype.trim, parseFloat, JSON.parse, Array.isArray, typeof)
are modelled explicitly below, faithfully to their ECMAScript behaviour
on the relevant inputs.  Numeric values are modelled as exact unreduced
decimal fractions (integer numerator over a power-of-ten denominator);
IEEE-754 rounding is abstracted away, which no claim here depends on.
-/

/-- The five variable types offered by the editor
(TypeScript union VariableType). -/
inductive VariableType where
  | string
  | number
  | boolean
  | list
  | object
deriving DecidableEq

/-- JavaScript whitespace characters relevant to String.prototype.trim and
parseFloat: space, tab, line feed, carriage return, vertical tab, form
feed, no-break space, BOM. -/
def isJsWhitespace (c : Char) : Bool :=
  c = ' ' || c = '\t' || c = '\n' || c = '\r' || c = Char.ofNat 11 ||
    c = Char.ofNat 12 || c = Char.ofNat 160 || c = Char.ofNat 65279

/-- Model of JavaScript String.prototype.trim: strip leading and trailing
whitespace. -/
def jsTrim (s : String) : String :=
  String.mk (((s.toList.dropWhile isJsWhitespace).reverse.dropWhile
    isJsWhitespace).reverse)

/-- Decimal digit test (codepoints 48 through 57). -/
def isDigitChar (c : Char) : Bool :=
  48 ≤ c.toNat && c.toNat ≤ 57

/-- Numeric value of a decimal digit character. -/
def digitVal (c : Char) : Nat :=
  c.toNat - 48

/-- Value of a string of decimal digits, most significant first. -/
def digitsToNat (ds : List Char) : Nat :=
  ds.foldl (fun a c => a * 10 + digitVal c) 0

/-- Split a character list into its leading run of decimal digits and the
remainder. -/
def takeDigits (cs : List Char) : List Char × List Char :=
  (cs.takeWhile isDigitChar, cs.dropWhile isDigitChar)

/-- Match a literal character sequence at the head of the input, returning
the remainder on success. -/
def dropLit : List Char → List Char → Option (List Char)
  | [], cs => some cs
  | _ :: _, [] => none
  | l :: ls, c :: cs => if c = l then dropLit ls cs else none

/-- An exact decimal number: numerator over a power-of-ten denominator,
deliberately left unnormalized.  Models the mathematical value denoted by
a JavaScript numeric literal; IEEE-754 rounding is abstracted away. -/
structure DecNum where
  num : Int
  den : Nat
deriving DecidableEq

/-- A JavaScript number as produced by parseFloat: either a finite value
or one of the two infinities.  (NaN is represented by Option.none at the
use sites.) -/
inductive JsNum where
  | finite (v : DecNum)
  | posInf
  | negInf
deriving DecidableEq

/-- Assemble the decimal value sign * intDigits.fracDigits * 10^±exp. -/
def decOfParts (neg : Bool) (intD fracD : List Char) (expNeg : Bool)
    (expD : List Char) : DecNum :=
  let base : Nat := digitsToNat (intD ++ fracD)
  let e : Nat := digitsToNat expD
  let n : Nat := if expNeg then base else base * Nat.pow 10 e
  let d : Nat := if expNeg then Nat.pow 10 fracD.length * Nat.pow 10 e
    else Nat.pow 10 fracD.length
  ⟨if neg then -(n : Int) else (n : Int), d⟩

/-- Model of the JavaScript global parseFloat: skip leading whitespace,
then read the longest prefix that is a signed decimal literal or a signed
Infinity; none models NaN (no parsable numeric prefix).  Trailing
characters after the numeric prefix are ignored, exactly as parseFloat
ignores them. -/
def parseFloat (s : String) : Option JsNum :=
  let cs := s.toList.dropWhile isJsWhitespace
  let signRes : Bool × List Char :=
    match cs with
    | '-' :: r => (true, r)
    | '+' :: r => (false, r)
    | _ => (false, cs)
  let neg := signRes.1
  let cs1 := signRes.2
  match dropLit ['I', 'n', 'f', 'i', 'n', 'i', 't', 'y'] cs1 with
  | some _ => some (if neg then JsNum.negInf else JsNum.posInf)
  | none =>
    let intRes := takeDigits cs1
    let intD := intRes.1
    let cs2 := intRes.2
    let fracRes : List Char × List Char :=
      match cs2 with
      | '.' :: r => takeDigits r
      | _ => ([], cs2)
    let fracD := fracRes.1
    let cs3 := fracRes.2
    if intD = [] ∧ fracD = [] then none
    else
      let expRes : Bool × List Char :=
        match cs3 with
        | c :: r =>
          if c = 'e' ∨ c = 'E' then
            match r with
            | '-' :: r2 => (true, (takeDigits r2).1)
            | '+' :: r2 => (false, (takeDigits r2).1)
            | _ => (false, (takeDigits r).1)
          else (false, [])
        | [] => (false, [])
      some (JsNum.finite (decOfParts neg intD fracD expRes.1 expRes.2))

/-- A JSON value as produced by JSON.parse: null, booleans, numbers,
strings, arrays, and objects (ordered field lists, first-occurrence order,
later duplicate keys overwriting the value in place as in JavaScript). -/
inductive JsValue where
  | null
  | bool (b : Bool)
  | num (v : DecNum)
  | str (s : String)
  | arr (elems : List JsValue)
  | obj (fields : List (String × JsValue))

/-- JSON whitespace: space, tab, line feed, carriage return. -/
def isJsonWs (c : Char) : Bool :=
  c = ' ' || c = '\t' || c = '\n' || c = '\r'

/-- Skip JSON whitespace. -/
def skipJsonWs (cs : List Char) : List Char :=
  cs.dropWhile isJsonWs

/-- The opening curly bracket character. -/
def lbrace : Char := Char.ofNat 123

/-- The closing curly bracket character. -/
def rbrace : Char := Char.ofNat 125

/-- Value of a single-character JSON string escape (after the backslash),
if legal. -/
def escChar (c : Char) : Option Char :=
  if c = '"' then some '"'
  else if c = '\\' then some '\\'
  else if c = '/' then some '/'
  else if c = 'b' then some (Char.ofNat 8)
  else if c = 'f' then some (Char.ofNat 12)
  else if c = 'n' then some '\n'
  else if c = 'r' then some '\r'
  else if c = 't' then some '\t'
  else none

/-- Value of a hexadecimal digit character, if it is one (digits, then
lowercase a through f at codepoints 97 through 102, then uppercase A
through F at codepoints 65 through 70). -/
def hexVal (c : Char) : Option Nat :=
  let n := c.toNat
  if isDigitChar c then some (digitVal c)
  else if 97 ≤ n && n ≤ 102 then some (n - 87)
  else if 65 ≤ n && n ≤ 70 then some (n - 55)
  else none

/-- Parse the body of a JSON string literal (the opening quote already
consumed), returning the decoded characters and the input after the
closing quote.  Raw control characters are rejected and the standard
escapes including unicode escapes are decoded, as in JSON.parse.  The
fuel argument bounds the recursion; any value at least the input length
suffices. -/
def parseStringBody : Nat → List Char → Option (List Char × List Char)
  | 0, _ => none
  | _ + 1, [] => none
  | fuel + 1, c :: rest =>
    if c = '"' then some ([], rest)
    else if c = '\\' then
      match rest with
      | [] => none
      | e :: rest2 =>
        if e = 'u' then
          match rest2 with
          | a :: b :: c2 :: d :: rest3 =>
            match hexVal a, hexVal b, hexVal c2, hexVal d with
            | some ha, some hb, some hc, some hd =>
              (parseStringBody fuel rest3).map
                (fun p =>
                  (Char.ofNat (((ha * 16 + hb) * 16 + hc) * 16 + hd) :: p.1,
                    p.2))
            | _, _, _, _ => none
          | _ => none
        else
          match escChar e with
          | some ec =>
            (parseStringBody fuel rest2).map (fun p => (ec :: p.1, p.2))
          | none => none
    else if c.toNat < 32 then none
    else (parseStringBody fuel rest).map (fun p => (c :: p.1, p.2))

/-- Parse a JSON number (strict JSON grammar: optional minus, integer part
with no superfluous leading zero, optional fraction with at least one
digit, optional exponent with at least one digit), returning its exact
decimal value and the remaining input. -/
def parseJsonNumber (cs : List Char) : Option (DecNum × List Char) :=
  let signRes : Bool × List Char :=
    match cs with
    | '-' :: r => (true, r)
    | _ => (false, cs)
  let neg := signRes.1
  let cs1 := signRes.2
  match cs1 with
  | [] => none
  | c :: rest =>
    if ¬ isDigitChar c then none
    else
      let intRes : List Char × List Char :=
        if c = '0' then ([c], rest) else takeDigits (c :: rest)
      let intD := intRes.1
      let cs2 := intRes.2
      let fracRes : Option (List Char × List Char) :=
        match cs2 with
        | '.' :: r =>
          let t := takeDigits r
          if t.1 = [] then none else some t
        | _ => some ([], cs2)
      match fracRes with
      | none => none
      | some (fracD, cs3) =>
        let expRes : Option (Bool × List Char × List Char) :=
          match cs3 with
          | c2 :: r =>
            if c2 = 'e' ∨ c2 = 'E' then
              match r with
              | '-' :: r2 =>
                let t := takeDigits r2
                if t.1 = [] then none else some (true, t.1, t.2)
              | '+' :: r2 =>
                let t := takeDigits r2
                if t.1 = [] then none else some (false, t.1, t.2)
              | _ =>
                let t := takeDigits r
                if t.1 = [] then none else some (false, t.1, t.2)
            else some (false, [], cs3)
          | [] => some (false, [], cs3)
        match expRes with
        | none => none
        | some (expNeg, expD, cs4) =>
          some (decOfParts neg intD fracD expNeg expD, cs4)

/-- Insert or replace a key in an association list, keeping the position
of an existing key and appending a new key at the end — the JavaScript
object assignment semantics used both by JSON.parse for duplicate keys
and by the variables-object construction in runPrompt. -/
def upsert {α : Type} : List (String × α) → String → α → List (String × α)
  | [], k, v => [(k, v)]
  | (k2, v2) :: rest, k, v =>
    if k2 = k then (k, v) :: rest else (k2, v2) :: upsert rest k v

/-- Look a key up in an association list. -/
def lookupMap {α : Type} : List (String × α) → String → Option α
  | [], _ => none
  | (k2, v) :: rest, k => if k2 = k then some v else lookupMap rest k

/-- Fold parsed object members left to right with JavaScript assignment
semantics, so that a later duplicate key overwrites the earlier value in
place, as JSON.parse does. -/
def buildObjFields (ms : List (String × JsValue)) :
    List (String × JsValue) :=
  ms.foldl (fun acc kv => upsert acc kv.1 kv.2) []

mutual

/-- Parse one JSON value at the head of the input (leading whitespace
already skipped), returning it and the remaining input.  The fuel bounds
the recursion depth; jsonParse supplies enough for any input. -/
def parseJsonValue : Nat → List Char → Option (JsValue × List Char)
  | 0, _ => none
  | fuel + 1, cs =>
    match cs with
    | [] => none
    | c :: rest =>
      if c = 'n' then
        (dropLit ['u', 'l', 'l'] rest).map (fun r => (JsValue.null, r))
      else if c = 't' then
        (dropLit ['r', 'u', 'e'] rest).map (fun r => (JsValue.bool true, r))
      else if c = 'f' then
        (dropLit ['a', 'l', 's', 'e'] rest).map
          (fun r => (JsValue.bool false, r))
      else if c = '"' then
        (parseStringBody rest.length rest).map
          (fun p => (JsValue.str (String.mk p.1), p.2))
      else if c = '[' then
        match skipJsonWs rest with
        | [] => none
        | c2 :: r2 =>
          if c2 = ']' then some (JsValue.arr [], r2)
          else
            (parseJsonElems fuel (c2 :: r2)).map
              (fun p => (JsValue.arr p.1, p.2))
      else if c = lbrace then
        match skipJsonWs rest with
        | [] => none
        | c2 :: r2 =>
          if c2 = rbrace then some (JsValue.obj [], r2)
          else
            (parseJsonMembers fuel (c2 :: r2)).map
              (fun p => (JsValue.obj (buildObjFields p.1), p.2))
      else if c = '-' ∨ isDigitChar c then
        (parseJsonNumber (c :: rest)).map (fun p => (JsValue.num p.1, p.2))
      else none

/-- Parse the elements of a non-empty JSON array (input positioned at the
first element), up to and including the closing square bracket. -/
def parseJsonElems : Nat → List Char → Option (List JsValue × List Char)
  | 0, _ => none
  | fuel + 1, cs =>
    match parseJsonValue fuel cs with
    | none => none
    | some (v, rest) =>
      match skipJsonWs rest with
      | [] => none
      | c :: r2 =>
        if c = ',' then
          (parseJsonElems fuel (skipJsonWs r2)).map
            (fun p => (v :: p.1, p.2))
        else if c = ']' then some ([v], r2)
        else none

/-- Parse the members of a non-empty JSON object (input positioned at the
first key), up to and including the closing curly bracket, in document
order. -/
def parseJsonMembers : Nat →
    List Char → Option (List (String × JsValue) × List Char)
  | 0, _ => none
  | fuel + 1, cs =>
    match cs with
    | '"' :: rest =>
      match parseStringBody rest.length rest with
      | none => none
      | some (kcs, r1) =>
        match skipJsonWs r1 with
        | ':' :: r2 =>
          match parseJsonValue fuel (skipJsonWs r2) with
          | none => none
          | some (v, r3) =>
            match skipJsonWs r3 with
            | [] => none
            | c :: r4 =>
              if c = ',' then
                (parseJsonMembers fuel (skipJsonWs r4)).map
                  (fun p => ((String.mk kcs, v) :: p.1, p.2))
              else if c = rbrace then some ([(String.mk kcs, v)], r4)
              else none
        | _ => none
    | _ => none

end

/-- Model of JSON.parse: parse a complete JSON text, requiring nothing but
whitespace after the value; none models a thrown SyntaxError. -/
def jsonParse (s : String) : Option JsValue :=
  match parseJsonValue (4 * s.length + 4) (skipJsonWs s.toList) with
  | some (v, rest) => if skipJsonWs rest = [] then some v else none
  | none => none

/-- Model of Array.isArray restricted to JSON.parse results. -/
def isArrayJs : JsValue → Bool
  | .arr _ => true
  | _ => false

/-- Whether the JavaScript typeof operator yields the string "object" on
this value: true exactly for null, arrays, and plain objects (typeof null
is "object" in JavaScript). -/
def typeofIsObject : JsValue → Bool
  | .null => true
  | .arr _ => true
  | .obj _ => true
  | _ => false

/-- One row of the variable editor: the variableFields entry of the page
component.  parseError is the optional inline validation error. -/
structure VariableEntry where
  key : String
  type : VariableType
  value : String
  boolValue : Bool
  parseError : Option String
deriving DecidableEq

/-- The (field, value) argument pair of updateVariableField, with the
value typed according to the field as the component uses it. -/
inductive FieldUpdate where
  | key (v : String)
  | value (v : String)
  | type (t : VariableType)
  | boolValue (b : Bool)
deriving DecidableEq

/-- The entry-level transition performed by updateVariableField on the
entry at the given index: type changes reset the value to a
type-appropriate default and clear the inline error; value edits on
list- and object-typed entries are JSON-validated inline (the text is
stored regardless); other edits just store the field. -/
def applyUpdate (e : VariableEntry) (u : FieldUpdate) : VariableEntry :=
  match u with
  | .type newType =>
    if newType = .boolean then
      { e with
        type := newType
        boolValue := false
        value := ""
        parseError := none }
    else if newType = .list ∨ newType = .object then
      { e with
        type := newType
        value := if newType = .list then "[]" else "\x7b\x7d"
        parseError := none }
    else
      { e with type := newType, value := "", parseError := none }
  | .boolValue b => { e with boolValue := b }
  | .key v => { e with key := v }
  | .value v =>
    if e.type = .list ∨ e.type = .object then
      { e with
        value := v
        parseError :=
          match jsonParse v with
          | some _ => none
          | none => some "Invalid JSON" }
    else
      { e with value := v }

/-- updateVariableField on the whole list: replace the entry at the index
by its updated version.  (An out-of-range index, which the component
never produces, is modelled as a no-op.) -/
def updateVariableField (fields : List VariableEntry) (index : Nat)
    (u : FieldUpdate) : List VariableEntry :=
  match fields[index]? with
  | some e => fields.set index (applyUpdate e u)
  | none => fields

/-- addVariableField: append a fresh empty string-typed entry. -/
def addVariableField (fields : List VariableEntry) : List VariableEntry :=
  fields ++ [⟨"", .string, "", false, none⟩]

/-- removeVariableField: drop the entry at the index. -/
def removeVariableField (fields : List VariableEntry) (index : Nat) :
    List VariableEntry :=
  fields.eraseIdx index

/-- The value delivered to the variables object for one entry: a string,
a number (possibly infinite, via parseFloat), a boolean, or a JSON value
returned as-is by the list/object conversion. -/
inductive VarValue where
  | str (s : String)
  | num (n : JsNum)
  | bool (b : Bool)
  | json (v : JsValue)

/-- parseVariableValue: convert one entry's raw data according to its
type; an error result models the thrown Error and carries its message.
The syntaxMsg parameter stands for the engine-dependent message of the
SyntaxError thrown by JSON.parse on the given input, which the code
embeds in its own message; no claim depends on its contents. -/
def parseVariableValue (syntaxMsg : String → String) (type : VariableType)
    (value : String) (boolValue : Bool) : Except String VarValue :=
  match type with
  | .string => .ok (.str value)
  | .number =>
    match parseFloat value with
    | none => .error ("Invalid number: " ++ value)
    | some n => .ok (.num n)
  | .boolean => .ok (.bool boolValue)
  | .list =>
    match jsonParse value with
    | none => .error ("Invalid list JSON: " ++ syntaxMsg value)
    | some p =>
      if isArrayJs p then .ok (.json p)
      else .error ("Invalid list JSON: " ++ "Value must be an array")
  | .object =>
    match jsonParse value with
    | none => .error ("Invalid object JSON: " ++ syntaxMsg value)
    | some p =>
      if isArrayJs p || !typeofIsObject p then
        .error ("Invalid object JSON: " ++ "Value must be an object")
      else .ok (.json p)

/-- Conversion of one entry, as invoked by the aggregation loop. -/
def convertEntry (syntaxMsg : String → String) (f : VariableEntry) :
    Except String VarValue :=
  parseVariableValue syntaxMsg f.type f.value f.boolValue

/-- The message wrapped around a failed entry conversion by the
aggregation loop in runPrompt (the key is used untrimmed). -/
def entryErrorMessage (f : VariableEntry) (msg : String) : String :=
  "Error parsing variable \"" ++ f.key ++ "\": " ++ msg

/-- The submit-time aggregation loop of runPrompt: walk the entries in
order, skip those whose trimmed key is empty, store each converted value
under the trimmed key with JavaScript assignment semantics, and stop at
the first conversion failure with the wrapped message. -/
def buildVariables (syntaxMsg : String → String) :
    List VariableEntry → List (String × VarValue) →
      Except String (List (String × VarValue))
  | [], acc => .ok acc
  | f :: rest, acc =>
    if jsTrim f.key = "" then buildVariables syntaxMsg rest acc
    else
      match convertEntry syntaxMsg f with
      | .ok v => buildVariables syntaxMsg rest (upsert acc (jsTrim f.key) v)
      | .error msg => .error (entryErrorMessage f msg)

/-- The last entry in the list whose trimmed key equals the given key, if
any. -/
def lastWith : List VariableEntry → String → Option VariableEntry
  | [], _ => none
  | f :: rest, k =>
    match lastWith rest k with
    | some g => some g
    | none => if jsTrim f.key = k then some f else none

/-- The first entry, in authored order, that has a non-blank trimmed key
and whose conversion fails, together with the conversion error
message. -/
def firstFailing (syntaxMsg : String → String) :
    List VariableEntry → Option (VariableEntry × String)
  | [] => none
  | f :: rest =>
    if jsTrim f.key = "" then firstFailing syntaxMsg rest
    else
      match convertEntry syntaxMsg f with
      | .error msg => some (f, msg)
      | .ok _ => firstFailing syntaxMsg rest

/-- Model and provider of the prompt version, from the remote response. -/
structure PromptVersionInfo where
  model : String
  provider : String
deriving DecidableEq

/-- Token usage counters of the remote response. -/
structure TokenUsage where
  inputTokens : Nat
  outputTokens : Nat
  totalTokens : Nat
deriving DecidableEq

/-- The remote client's run-prompt response as consumed by the page. -/
structure RunPromptResponse where
  output : String
  runId : String
  renderedPrompt : String
  promptVersion : PromptVersionInfo
  tokenUsage : TokenUsage
deriving DecidableEq

/-- The page component's state variables touched by the run and feedback
flows. -/
structure PageState where
  promptResponse : Option RunPromptResponse
  feedbackIds : List String
  widgetKey : Nat
  error : Option String
  isRunning : Bool
  variableFields : List VariableEntry
  showRunPrompt : Bool
deriving DecidableEq

/-- Outcome of the awaited remote client call, consulted only when the
call is actually made: a response, or a rejection carrying the thrown
error's message (none models a thrown value that is not an Error). -/
inductive RemoteResult where
  | success (response : RunPromptResponse)
  | failure (message : Option String)
deriving DecidableEq

/-- JavaScript truthiness of the configured base URL: an absent or empty
environment value is falsy. -/
def isConfigured : Option String → Bool
  | none => false
  | some u => u != ""

/-- The configuration error message thrown when no base URL is set. -/
def configErrorMessage : String :=
  "NEXT_PUBLIC_EXTERNAL_API_URL is not configured"

/-- The generic fallback used when a caught value carries no message. -/
def unknownErrorMessage : String := "An unknown error occurred"

/-- Result of one runPrompt invocation: the final component state and
whether the remote client's run-prompt operation was invoked. -/
structure RunEffect where
  state : PageState
  invokedClient : Bool
deriving DecidableEq

/-- The runPrompt handler: clear previous response, error, feedback ids
and widget key while setting isRunning; build the variables object from
the current entries (fail-fast); require a truthy base URL; only then
perform the remote call; store the response or the error message; always
finish with isRunning false. -/
def runPrompt (syntaxMsg : String → String) (baseUrl : Option String)
    (remote : RemoteResult) (s : PageState) : RunEffect :=
  let s1 : PageState :=
    { s with
      isRunning := true
      error := none
      promptResponse := none
      feedbackIds := []
      widgetKey := 0 }
  match buildVariables syntaxMsg s.variableFields [] with
  | .error msg =>
    ⟨{ s1 with error := some msg, isRunning := false }, false⟩
  | .ok _ =>
    if isConfigured baseUrl then
      match remote with
      | .success r =>
        ⟨{ s1 with
          promptResponse := some r
          showRunPrompt := false
          isRunning := false }, true⟩
      | .failure msg? =>
        ⟨{ s1 with
          error := some (msg?.getD unknownErrorMessage)
          isRunning := false }, true⟩
    else
      ⟨{ s1 with error := some configErrorMessage, isRunning := false },
        false⟩

/-- The feedback widget's onSuccess callback: append the returned
feedback id and bump the widget key so the widget remounts fresh. -/
def feedbackOnSuccess (feedbackId : String) (s : PageState) : PageState :=
  { s with
    feedbackIds := s.feedbackIds ++ [feedbackId]
    widgetKey := s.widgetKey + 1 }

/-- The feedback widget's onError callback: surface the message through
the shared error slot. -/
def feedbackOnError (message : String) (s : PageState) : PageState :=
  { s with error := some message }

/-- Modelled from the spec: the per-type default raw value the spec's
type-change table prescribes (empty string for string, number and
boolean; the empty JSON array and object texts for list and object).
Stated separately from applyUpdate so the type-change claim compares the
code against the spec's table. -/
def specTypeDefault : VariableType → String
  | .string => ""
  | .number => ""
  | .boolean => ""
  | .list => "[]"
  | .object => "\x7b\x7d"

/-- C1 (amended): object-typed conversion succeeds exactly when the raw
string is valid JSON denoting an object or the JSON literal null (null is
accepted because the JavaScript typeof operator yields "object" on null);
arrays and the remaining primitives are rejected with a message
containing "must be an object"; the quoted examples behave as stated. -/
theorem claim_C1 (m : String → String) (v : String) (b : Bool) :
    ((∃ r, parseVariableValue m .object v b = .ok r) ↔
      ((∃ fs, jsonParse v = some (JsValue.obj fs)) ∨
        jsonParse v = some JsValue.null)) ∧
    parseVariableValue m .object "\x7b\"a\":1\x7d" b =
      .ok (.json (.obj [("a", .num ⟨1, 1⟩)])) ∧
    parseVariableValue m .object "[1,2]" b =
      .error ("Invalid object JSON: " ++ "Value must be an object") ∧
    parseVariableValue m .object "5" b =
      .error ("Invalid object JSON: " ++ "Value must be an object") := by
  refine ⟨?_, rfl, rfl, rfl⟩
  cases hj : jsonParse v with
  | none => simp [parseVariableValue, hj]
  | some p =>
    cases p <;> simp [parseVariableValue, hj, isArrayJs, typeofIsObject]

/-- C1 counterexample to the claim as stated: the raw string "null" is
valid JSON that is not an object (it is the primitive null), yet
object-typed conversion succeeds on it instead of failing, because
typeof null is "object" in JavaScript. -/
theorem claim_C1_counterexample :
    jsonParse "null" = some JsValue.null ∧
    parseVariableValue (fun _ => "") .object "null" false =
      .ok (.json JsValue.null) :=
  ⟨rfl, rfl⟩

/-- C1 witness: the amended characterization applied at the concrete
input denoting the empty JSON object. -/
theorem claim_C1_witness :
    ∃ r, parseVariableValue (fun _ => "") .object "\x7b\x7d" false =
      .ok r :=
  (claim_C1 (fun _ => "") "\x7b\x7d" false).1.mpr (Or.inl ⟨[], rfl⟩)

/-- C2 (amended): number-typed conversion fails exactly when parseFloat
yields NaN (no parsable numeric prefix), and otherwise returns the
parsed number — including the non-finite values Infinity and -Infinity,
which are accepted because the code only checks isNaN; "42" converts to
42, "3.14" to 3.14, and "abc" raises a conversion failure naming the
variable. -/
theorem claim_C2 (m : String → String) (v : String) (b : Bool) :
    ((∃ e, parseVariableValue m .number v b = .error e) ↔
      parseFloat v = none) ∧
    (∀ n, parseFloat v = some n →
      parseVariableValue m .number v b = .ok (.num n)) ∧
    parseVariableValue m .number "42" b = .ok (.num (.finite ⟨42, 1⟩)) ∧
    parseVariableValue m .number "3.14" b =
      .ok (.num (.finite ⟨314, 100⟩)) ∧
    buildVariables m [⟨"x", .number, "abc", false, none⟩] [] =
      .error "Error parsing variable \"x\": Invalid number: abc" := by
  refine ⟨?_, ?_, rfl, rfl, rfl⟩
  · cases hf : parseFloat v <;> simp [parseVariableValue, hf]
  · intro n hn
    simp [parseVariableValue, hn]

/-- C2 counterexample to the claim as stated: the raw text "Infinity"
parses (via parseFloat) to a number that is not finite, yet number-typed
conversion succeeds and returns it instead of failing, because the code
only rejects NaN. -/
theorem claim_C2_counterexample :
    parseFloat "Infinity" = some JsNum.posInf ∧
    parseVariableValue (fun _ => "") .number "Infinity" false =
      .ok (.num JsNum.posInf) :=
  ⟨rfl, rfl⟩

/-- C2 witness: the amended success direction applied at the concrete
input "42". -/
theorem claim_C2_witness :
    parseVariableValue (fun _ => "") .number "42" false =
      .ok (.num (.finite ⟨42, 1⟩)) :=
  (claim_C2 (fun _ => "") "42" false).2.1 (.finite ⟨42, 1⟩) rfl

/-- C7: switching an entry's type resets its value to the new type's
default (empty string for string and number, false with empty string for
boolean, the empty JSON array text for list, the empty JSON object text
for object) and clears any prior validation error, for every previous
entry state. -/
theorem claim_C7 (e : VariableEntry) (t : VariableType) :
    (applyUpdate e (.type t)).type = t ∧
    (applyUpdate e (.type t)).value = specTypeDefault t ∧
    (applyUpdate e (.type t)).parseError = none ∧
    (t = .boolean → (applyUpdate e (.type t)).boolValue = false) := by
  cases t <;> simp [applyUpdate, specTypeDefault]

/-- C7 witness: a boolean type switch on an entry with a stale value and
a prior validation error. -/
theorem claim_C7_witness :
    (applyUpdate ⟨"k", .list, "oops", true, some "Invalid JSON"⟩
      (.type .boolean)).value = specTypeDefault .boolean ∧
    (applyUpdate ⟨"k", .list, "oops", true, some "Invalid JSON"⟩
      (.type .boolean)).boolValue = false :=
  ⟨(claim_C7 ⟨"k", .list, "oops", true, some "Invalid JSON"⟩ .boolean).2.1,
    (claim_C7 ⟨"k", .list, "oops", true, some "Invalid JSON"⟩ .boolean).2.2.2
      rfl⟩

/-- C8: editing the raw value always stores the new text; on a list- or
object-typed entry it sets the validation error to "Invalid JSON" when
the new text is not valid JSON and clears it when it is, while on a
string-, number-, or boolean-typed entry it leaves the validation error
untouched (no validation is performed). -/
theorem claim_C8 (e : VariableEntry) (v : String) :
    (applyUpdate e (.value v)).value = v ∧
    (applyUpdate e (.value v)).type = e.type ∧
    ((e.type = .list ∨ e.type = .object) →
      (applyUpdate e (.value v)).parseError =
        (if (jsonParse v).isSome then none else some "Invalid JSON")) ∧
    ((e.type = .string ∨ e.type = .number ∨ e.type = .boolean) →
      (applyUpdate e (.value v)).parseError = e.parseError) := by
  cases het : e.type <;>
    cases hj : jsonParse v <;>
      simp [applyUpdate, het, hj]

/-- C8 witness: an invalid JSON edit on a list-typed entry flags the
entry. -/
theorem claim_C8_witness :
    (applyUpdate ⟨"k", .list, "[]", false, none⟩
      (.value "nope")).parseError = some "Invalid JSON" :=
  ((claim_C8 ⟨"k", .list, "[]", false, none⟩ "nope").2.2.1
    (Or.inl rfl)).trans rfl

/-- C10: switching an entry's type to list or object and converting it
without any further edit always succeeds: the defaults convert to the
empty array and the empty object respectively, for every prior entry
state. -/
theorem claim_C10 (m : String → String) (e : VariableEntry) :
    convertEntry m (applyUpdate e (.type .list)) =
      .ok (.json (.arr [])) ∧
    convertEntry m (applyUpdate e (.type .object)) =
      .ok (.json (.obj [])) :=
  ⟨rfl, rfl⟩

/-- Looking up a key after an upsert: the upserted key maps to the new
value, every other key is unaffected. -/
theorem lookupMap_upsert {α : Type} (ms : List (String × α)) (k k2 : String)
    (v : α) :
    lookupMap (upsert ms k v) k2 =
      if k2 = k then some v else lookupMap ms k2 := by
  induction ms with
  | nil =>
    by_cases h : k2 = k
    · subst h; simp [upsert, lookupMap]
    · simp [upsert, lookupMap, h, Ne.symm h]
  | cons hd tl ih =>
    obtain ⟨hk, hv⟩ := hd
    by_cases h1 : hk = k
    · subst h1
      by_cases h2 : k2 = hk
      · subst h2; simp [upsert, lookupMap]
      · simp [upsert, lookupMap, h2, Ne.symm h2]
    · by_cases h2 : hk = k2
      · subst h2
        simp [upsert, lookupMap, h1, Ne.symm h1]
      · simp [upsert, lookupMap, h1, h2, ih]

/-- Dropping the blank-key entries does not change the aggregation
result, whatever the accumulator. -/
theorem buildVariables_filter (m : String → String)
    (fields : List VariableEntry) :
    ∀ init, buildVariables m (fields.filter (fun f => jsTrim f.key != ""))
      init = buildVariables m fields init := by
  induction fields with
  | nil => intro init; rfl
  | cons f rest ih =>
    intro init
    by_cases hblank : jsTrim f.key = ""
    · simp [List.filter_cons, bne_iff_ne, hblank, buildVariables, ih]
    · cases hc : convertEntry m f with
      | error msg =>
        simp [List.filter_cons, bne_iff_ne, hblank, buildVariables, hc]
      | ok v =>
        simp [List.filter_cons, bne_iff_ne, hblank, buildVariables, hc, ih]

/-- A successful aggregation maps each key to the converted value of the
last entry carrying that key, and leaves other keys to the
accumulator. -/
theorem buildVariables_lookup (m : String → String)
    (fields : List VariableEntry) :
    ∀ (init vm : List (String × VarValue)) (k : String), k ≠ "" →
      buildVariables m fields init = .ok vm →
      lookupMap vm k =
        (match lastWith fields k with
         | some f => (convertEntry m f).toOption
         | none => lookupMap init k) := by
  induction fields with
  | nil =>
    intro init vm k hk h
    simp [buildVariables] at h
    subst h
    simp [lastWith]
  | cons f rest ih =>
    intro init vm k hk h
    by_cases hblank : jsTrim f.key = ""
    · simp only [buildVariables, hblank, if_pos rfl] at h
      have hrec := ih init vm k hk h
      have hl : lastWith (f :: rest) k = lastWith rest k := by
        cases hlr : lastWith rest k with
        | some g => simp [lastWith, hlr]
        | none =>
          have : jsTrim f.key ≠ k := by
            rw [hblank]; exact Ne.symm hk
          simp [lastWith, hlr, this]
      rw [hl]
      exact hrec
    · cases hc : convertEntry m f with
      | error msg => simp [buildVariables, hblank, hc] at h
      | ok v =>
        simp [buildVariables, hblank, hc] at h
        have hrec := ih (upsert init (jsTrim f.key) v) vm k hk h
        cases hlr : lastWith rest k with
        | some g =>
          rw [hrec, hlr]
          simp [lastWith, hlr]
        | none =>
          rw [hrec, hlr]
          by_cases hkey : jsTrim f.key = k
          · simp [lastWith, hlr, hkey, lookupMap_upsert, hc,
              Except.toOption]
          · simp [lastWith, hlr, hkey, lookupMap_upsert, Ne.symm hkey]

/-- A successful aggregation implies every non-blank entry converted. -/
theorem buildVariables_ok_entry (m : String → String)
    (fields : List VariableEntry) :
    ∀ init vm, buildVariables m fields init = .ok vm →
      ∀ f ∈ fields, jsTrim f.key ≠ "" → ∃ v, convertEntry m f = .ok v := by
  induction fields with
  | nil => intro init vm _ f hf; exact absurd hf (List.not_mem_nil f)
  | cons g rest ih =>
    intro init vm h f hf hkey
    by_cases hblank : jsTrim g.key = ""
    · simp only [buildVariables, hblank, if_pos rfl] at h
      rcases List.mem_cons.mp hf with hfg | hfr
      · subst hfg; exact absurd hblank hkey
      · exact ih init vm h f hfr hkey
    · cases hc : convertEntry m g with
      | error msg => simp [buildVariables, hblank, hc] at h
      | ok v =>
        simp only [buildVariables, hblank, if_neg hblank, hc] at h
        rcases List.mem_cons.mp hf with hfg | hfr
        · subst hfg; exact ⟨v, hc⟩
        · exact ih _ vm h f hfr hkey

/-- The last entry matching a key does carry that key and belongs to the
list. -/
theorem lastWith_mem (fields : List VariableEntry) (k : String)
    (f : VariableEntry) :
    lastWith fields k = some f → f ∈ fields ∧ jsTrim f.key = k := by
  induction fields with
  | nil => intro h; simp [lastWith] at h
  | cons g rest ih =>
    intro h
    cases hlr : lastWith rest k with
    | some g2 =>
      rw [lastWith, hlr] at h
      injection h with h2
      subst h2
      obtain ⟨hmem, hkey⟩ := ih hlr
      exact ⟨List.mem_cons_of_mem g hmem, hkey⟩
    | none =>
      rw [lastWith, hlr] at h
      by_cases hkey : jsTrim g.key = k
      · rw [if_pos hkey] at h
        injection h with h2
        subst h2
        exact ⟨List.mem_cons_self g rest, hkey⟩
      · rw [if_neg hkey] at h
        exact Option.noConfusion h

/-- C3: blank-key entries are skipped (removing them changes nothing,
for entries of every type), and on success each key in the resulting map
holds the converted value of the last entry, in authored order, whose
trimmed key equals it — later duplicates overwrite earlier ones. -/
theorem claim_C3 (m : String → String) (fields : List VariableEntry) :
    buildVariables m (fields.filter (fun f => jsTrim f.key != "")) [] =
      buildVariables m fields [] ∧
    (∀ vm k f, buildVariables m fields [] = .ok vm → k ≠ "" →
      lastWith fields k = some f →
      ∃ v, convertEntry m f = .ok v ∧ lookupMap vm k = some v) := by
  refine ⟨buildVariables_filter m fields [], ?_⟩
  intro vm k f hok hk hlast
  obtain ⟨hmem, hkey⟩ := lastWith_mem fields k f hlast
  obtain ⟨v, hv⟩ := buildVariables_ok_entry m fields [] vm hok f hmem
    (by rw [hkey]; exact hk)
  refine ⟨v, hv, ?_⟩
  have := buildVariables_lookup m fields [] vm k hk hok
  rw [hlast] at this
  rw [this]
  simp [hv, Except.toOption]

/-- C3 witness: a list with a blank-keyed entry and two entries sharing
the trimmed key "a"; the last one's converted value is the one found in
the resulting map. -/
theorem claim_C3_witness :
    ∃ v, convertEntry (fun _ => "")
      ⟨"a ", .number, "2", false, none⟩ = .ok v ∧
      lookupMap [("a", VarValue.num (.finite ⟨2, 1⟩))] "a" = some v :=
  (claim_C3 (fun _ => "")
    [⟨"a", .string, "v1", false, none⟩,
      ⟨" ", .string, "zz", false, none⟩,
      ⟨"a ", .number, "2", false, none⟩]).2
    [("a", VarValue.num (.finite ⟨2, 1⟩))] "a"
    ⟨"a ", .number, "2", false, none⟩ rfl (by decide) rfl

/-- If some non-blank entry fails, the aggregation over the list extended
by anything stops at the first failing entry and reports its wrapped
message. -/
theorem buildVariables_firstFailing_error (m : String → String)
    (fields : List VariableEntry) :
    ∀ (extra : List VariableEntry) (init : List (String × VarValue))
      (f : VariableEntry) (msg : String),
      firstFailing m fields = some (f, msg) →
      buildVariables m (fields ++ extra) init =
        .error (entryErrorMessage f msg) := by
  induction fields with
  | nil => intro extra init f msg h; simp [firstFailing] at h
  | cons g rest ih =>
    intro extra init f msg h
    by_cases hblank : jsTrim g.key = ""
    · simp only [firstFailing, hblank, if_pos rfl] at h
      simpa [buildVariables, hblank] using ih extra init f msg h
    · cases hc : convertEntry m g with
      | error msg2 =>
        simp only [firstFailing, hblank, if_neg hblank, hc] at h
        injection h with h2
        injection h2 with h3 h4
        subst h3
        subst h4
        simp [buildVariables, hblank, hc]
      | ok v =>
        simp only [firstFailing, hblank, if_neg hblank, hc] at h
        simpa [buildVariables, hblank, hc] using ih extra _ f msg h

/-- If no non-blank entry fails, the aggregation succeeds. -/
theorem buildVariables_firstFailing_none (m : String → String)
    (fields : List VariableEntry) :
    ∀ init, firstFailing m fields = none →
      ∃ vm, buildVariables m fields init = .ok vm := by
  induction fields with
  | nil => intro init _; exact ⟨init, rfl⟩
  | cons g rest ih =>
    intro init h
    by_cases hblank : jsTrim g.key = ""
    · simp only [firstFailing, hblank, if_pos rfl] at h
      simpa [buildVariables, hblank] using ih init h
    · cases hc : convertEntry m g with
      | error msg => simp [firstFailing, hblank, hc] at h
      | ok v =>
        simp only [firstFailing, hblank, if_neg hblank, hc] at h
        simpa [buildVariables, hblank, hc] using
          ih (upsert init (jsTrim g.key) v) h

/-- C4: when some non-blank entry fails to convert, the aggregation
raises the single error of the first failing entry in authored order —
whatever entries follow it (they are never converted) — and its message
is the wrapped concatenation of the offending key and the underlying
conversion message; conversely, with no failing entry the aggregation
succeeds. -/
theorem claim_C4 (m : String → String) (fields extra : List VariableEntry)
    (init : List (String × VarValue)) (f : VariableEntry) (msg : String) :
    (firstFailing m fields = some (f, msg) →
      buildVariables m (fields ++ extra) init =
        .error ("Error parsing variable \"" ++ f.key ++ "\": " ++ msg)) ∧
    (firstFailing m fields = none →
      ∃ vm, buildVariables m fields init = .ok vm) :=
  ⟨fun h => buildVariables_firstFailing_error m fields extra init f msg h,
    fun h => buildVariables_firstFailing_none m fields init h⟩

/-- C4 witness: a good entry, a failing entry, a later failing entry and
appended extra entries; the reported error is the first failing entry's,
with its key and the underlying message in the text. -/
theorem claim_C4_witness :
    buildVariables (fun _ => "")
      ([⟨"good", .string, "x", false, none⟩,
        ⟨"bad", .number, "abc", false, none⟩,
        ⟨"also", .number, "zzz", false, none⟩] ++
        [⟨"later", .number, "qqq", false, none⟩]) [] =
      .error ("Error parsing variable \"" ++ "bad" ++ "\": " ++
        "Invalid number: abc") :=
  (claim_C4 (fun _ => "")
    [⟨"good", .string, "x", false, none⟩,
      ⟨"bad", .number, "abc", false, none⟩,
      ⟨"also", .number, "zzz", false, none⟩]
    [⟨"later", .number, "qqq", false, none⟩] []
    ⟨"bad", .number, "abc", false, none⟩ "Invalid number: abc").1 rfl

/-- runPrompt when variable conversion fails: the error is stored, the
run flag drops, previous outputs stay cleared, the client is not
invoked. -/
theorem runPrompt_build_error (m : String → String) (baseUrl : Option String)
    (remote : RemoteResult) (s : PageState) (msg : String)
    (h : buildVariables m s.variableFields [] = .error msg) :
    runPrompt m baseUrl remote s =
      ⟨{ s with
        isRunning := false
        error := some msg
        promptResponse := none
        feedbackIds := []
        widgetKey := 0 }, false⟩ := by
  simp [runPrompt, h]

/-- runPrompt when conversion succeeds but no base URL is configured:
the configuration error is stored, the client is not invoked. -/
theorem runPrompt_config_error (m : String → String) (baseUrl : Option String)
    (remote : RemoteResult) (s : PageState)
    (vars : List (String × VarValue))
    (h : buildVariables m s.variableFields [] = .ok vars)
    (hc : isConfigured baseUrl = false) :
    runPrompt m baseUrl remote s =
      ⟨{ s with
        isRunning := false
        error := some configErrorMessage
        promptResponse := none
        feedbackIds := []
        widgetKey := 0 }, false⟩ := by
  simp [runPrompt, h, hc]

/-- runPrompt on a successful remote call: the response is stored, the
input panel collapses, previous error and feedback data stay cleared. -/
theorem runPrompt_success (m : String → String) (baseUrl : Option String)
    (r : RunPromptResponse) (s : PageState)
    (vars : List (String × VarValue))
    (h : buildVariables m s.variableFields [] = .ok vars)
    (hc : isConfigured baseUrl = true) :
    runPrompt m baseUrl (.success r) s =
      ⟨{ s with
        isRunning := false
        error := none
        promptResponse := some r
        feedbackIds := []
        widgetKey := 0
        showRunPrompt := false }, true⟩ := by
  simp [runPrompt, h, hc]

/-- runPrompt on a failed remote call: the rejection's message (or the
generic fallback) is stored and the previous response stays cleared. -/
theorem runPrompt_remote_failure (m : String → String)
    (baseUrl : Option String) (msg? : Option String) (s : PageState)
    (vars : List (String × VarValue))
    (h : buildVariables m s.variableFields [] = .ok vars)
    (hc : isConfigured baseUrl = true) :
    runPrompt m baseUrl (.failure msg?) s =
      ⟨{ s with
        isRunning := false
        error := some (msg?.getD unknownErrorMessage)
        promptResponse := none
        feedbackIds := []
        widgetKey := 0 }, true⟩ := by
  simp [runPrompt, h, hc]

/-- C5: if variable conversion fails, the remote client is never invoked,
the error slot holds the parse-failure message (whatever the base URL,
so the configuration check comes only after conversion succeeds), and
running returns to false; if conversion succeeds but the base URL is not
configured, the client is likewise never invoked, the error slot holds
the configuration message, and running returns to false. -/
theorem claim_C5 (m : String → String) (baseUrl : Option String)
    (remote : RemoteResult) (s : PageState) :
    (∀ msg, buildVariables m s.variableFields [] = .error msg →
      (runPrompt m baseUrl remote s).invokedClient = false ∧
      (runPrompt m baseUrl remote s).state.error = some msg ∧
      (runPrompt m baseUrl remote s).state.isRunning = false) ∧
    (∀ vars, buildVariables m s.variableFields [] = .ok vars →
      isConfigured baseUrl = false →
      (runPrompt m baseUrl remote s).invokedClient = false ∧
      (runPrompt m baseUrl remote s).state.error = some configErrorMessage ∧
      (runPrompt m baseUrl remote s).state.isRunning = false) := by
  constructor
  · intro msg h
    rw [runPrompt_build_error m baseUrl remote s msg h]
    exact ⟨rfl, rfl, rfl⟩
  · intro vars h hc
    rw [runPrompt_config_error m baseUrl remote s vars h hc]
    exact ⟨rfl, rfl, rfl⟩

/-- C5 witness: a run with a bad number variable and no configured base
URL never reaches the client and reports the parse failure. -/
theorem claim_C5_witness :
    (runPrompt (fun _ => "") none (.failure none)
      ⟨none, [], 0, none, false,
        [⟨"x", .number, "abc", false, none⟩], true⟩).invokedClient =
      false ∧
    (runPrompt (fun _ => "") none (.failure none)
      ⟨none, [], 0, none, false,
        [⟨"x", .number, "abc", false, none⟩], true⟩).state.error =
      some "Error parsing variable \"x\": Invalid number: abc" :=
  ⟨((claim_C5 (fun _ => "") none (.failure none)
      ⟨none, [], 0, none, false,
        [⟨"x", .number, "abc", false, none⟩], true⟩).1
      "Error parsing variable \"x\": Invalid number: abc" rfl).1,
    ((claim_C5 (fun _ => "") none (.failure none)
      ⟨none, [], 0, none, false,
        [⟨"x", .number, "abc", false, none⟩], true⟩).1
      "Error parsing variable \"x\": Invalid number: abc" rfl).2.1⟩

/-- C6: the outputs of a run (response, error, feedback id list, widget
key) never depend on the previous response, error or feedback state —
they are cleared before anything else — and on every failed run the
response slot is empty and the feedback id list is empty: failure
discards the previously stored successful result. -/
theorem claim_C6 (m : String → String) (baseUrl : Option String)
    (remote : RemoteResult) (s s2 : PageState) :
    ((runPrompt m baseUrl remote s).state.error ≠ none →
      (runPrompt m baseUrl remote s).state.promptResponse = none ∧
      (runPrompt m baseUrl remote s).state.feedbackIds = [] ∧
      (runPrompt m baseUrl remote s).state.widgetKey = 0) ∧
    (s2.variableFields = s.variableFields →
      (runPrompt m baseUrl remote s2).state.promptResponse =
        (runPrompt m baseUrl remote s).state.promptResponse ∧
      (runPrompt m baseUrl remote s2).state.error =
        (runPrompt m baseUrl remote s).state.error ∧
      (runPrompt m baseUrl remote s2).state.feedbackIds =
        (runPrompt m baseUrl remote s).state.feedbackIds) := by
  constructor
  · intro herr
    cases hb : buildVariables m s.variableFields [] with
    | error msg =>
      rw [runPrompt_build_error m baseUrl remote s msg hb]
      exact ⟨rfl, rfl, rfl⟩
    | ok vars =>
      cases hc : isConfigured baseUrl with
      | false =>
        rw [runPrompt_config_error m baseUrl remote s vars hb hc]
        exact ⟨rfl, rfl, rfl⟩
      | true =>
        cases remote with
        | success r =>
          rw [runPrompt_success m baseUrl r s vars hb hc] at herr
          exact absurd rfl herr
        | failure msg? =>
          rw [runPrompt_remote_failure m baseUrl msg? s vars hb hc]
          exact ⟨rfl, rfl, rfl⟩
  · intro hvf
    cases hb : buildVariables m s.variableFields [] with
    | error msg =>
      have hb2 : buildVariables m s2.variableFields [] = .error msg := by
        rw [hvf]; exact hb
      rw [runPrompt_build_error m baseUrl remote s msg hb,
        runPrompt_build_error m baseUrl remote s2 msg hb2]
      exact ⟨rfl, rfl, rfl⟩
    | ok vars =>
      have hb2 : buildVariables m s2.variableFields [] = .ok vars := by
        rw [hvf]; exact hb
      cases hc : isConfigured baseUrl with
      | false =>
        rw [runPrompt_config_error m baseUrl remote s vars hb hc,
          runPrompt_config_error m baseUrl remote s2 vars hb2 hc]
        exact ⟨rfl, rfl, rfl⟩
      | true =>
        cases remote with
        | success r =>
          rw [runPrompt_success m baseUrl r s vars hb hc,
            runPrompt_success m baseUrl r s2 vars hb2 hc]
          exact ⟨rfl, rfl, rfl⟩
        | failure msg? =>
          rw [runPrompt_remote_failure m baseUrl msg? s vars hb hc,
            runPrompt_remote_failure m baseUrl msg? s2 vars hb2 hc]
          exact ⟨rfl, rfl, rfl⟩

/-- C6 witness: a failed run (unconfigured base URL) started from a
state holding a previous successful response, error and feedback ids
ends with the previous response discarded. -/
theorem claim_C6_witness :
    (runPrompt (fun _ => "") none (.failure none)
      ⟨some ⟨"old", "run0", "rp", ⟨"mo", "pr"⟩, ⟨1, 2, 3⟩⟩, ["fid0"], 5,
        some "old error", false, [], true⟩).state.promptResponse = none ∧
    (runPrompt (fun _ => "") none (.failure none)
      ⟨some ⟨"old", "run0", "rp", ⟨"mo", "pr"⟩, ⟨1, 2, 3⟩⟩, ["fid0"], 5,
        some "old error", false, [], true⟩).state.feedbackIds = [] :=
  ⟨((claim_C6 (fun _ => "") none (.failure none)
      ⟨some ⟨"old", "run0", "rp", ⟨"mo", "pr"⟩, ⟨1, 2, 3⟩⟩, ["fid0"], 5,
        some "old error", false, [], true⟩
      ⟨some ⟨"old", "run0", "rp", ⟨"mo", "pr"⟩, ⟨1, 2, 3⟩⟩, ["fid0"], 5,
        some "old error", false, [], true⟩).1
      (by simp [runPrompt, buildVariables, isConfigured,
        configErrorMessage])).1,
    ((claim_C6 (fun _ => "") none (.failure none)
      ⟨some ⟨"old", "run0", "rp", ⟨"mo", "pr"⟩, ⟨1, 2, 3⟩⟩, ["fid0"], 5,
        some "old error", false, [], true⟩
      ⟨some ⟨"old", "run0", "rp", ⟨"mo", "pr"⟩, ⟨1, 2, 3⟩⟩, ["fid0"], 5,
        some "old error", false, [], true⟩).1
      (by simp [runPrompt, buildVariables, isConfigured,
        configErrorMessage])).2.1⟩

/-- C9: every feedback success callback appends the returned id to the
feedback id list and increments the widget key; after a successful run
(which resets the list to empty and the key to zero) two sequential
submissions produce a list of length two holding both ids in order, the
widget key passing through the distinct values 0, 1, 2. -/
theorem claim_C9 :
    (∀ (s : PageState) (fid : String),
      (feedbackOnSuccess fid s).feedbackIds = s.feedbackIds ++ [fid] ∧
      (feedbackOnSuccess fid s).widgetKey = s.widgetKey + 1) ∧
    (∀ (m : String → String) (baseUrl : Option String)
      (r : RunPromptResponse) (s : PageState) (f1 f2 : String)
      (vars : List (String × VarValue)),
      buildVariables m s.variableFields [] = .ok vars →
      isConfigured baseUrl = true →
      (runPrompt m baseUrl (.success r) s).state.feedbackIds = [] ∧
      (runPrompt m baseUrl (.success r) s).state.widgetKey = 0 ∧
      (feedbackOnSuccess f1
        (runPrompt m baseUrl (.success r) s).state).feedbackIds = [f1] ∧
      (feedbackOnSuccess f1
        (runPrompt m baseUrl (.success r) s).state).widgetKey = 1 ∧
      (feedbackOnSuccess f2 (feedbackOnSuccess f1
        (runPrompt m baseUrl (.success r) s).state)).feedbackIds =
        [f1, f2] ∧
      (feedbackOnSuccess f2 (feedbackOnSuccess f1
        (runPrompt m baseUrl (.success r) s).state)).widgetKey = 2) := by
  constructor
  · intro s fid
    exact ⟨rfl, rfl⟩
  · intro m baseUrl r s f1 f2 vars h hc
    rw [runPrompt_success m baseUrl r s vars h hc]
    exact ⟨rfl, rfl, rfl, rfl, rfl, rfl⟩

/-- C9 witness: a concrete successful run followed by two feedback
submissions yields the two ids in order with distinct widget keys. -/
theorem claim_C9_witness :
    (feedbackOnSuccess "f2" (feedbackOnSuccess "f1"
      (runPrompt (fun _ => "") (some "u")
        (.success ⟨"out", "run1", "rp", ⟨"mo", "pr"⟩, ⟨1, 2, 3⟩⟩)
        ⟨none, [], 0, none, false, [], true⟩).state)).feedbackIds =
      ["f1", "f2"] ∧
    (feedbackOnSuccess "f2" (feedbackOnSuccess "f1"
      (runPrompt (fun _ => "") (some "u")
        (.success ⟨"out", "run1", "rp", ⟨"mo", "pr"⟩, ⟨1, 2, 3⟩⟩)
        ⟨none, [], 0, none, false, [], true⟩).state)).widgetKey = 2 :=
  ⟨(claim_C9.2 (fun _ => "") (some "u")
      ⟨"out", "run1", "rp", ⟨"mo", "pr"⟩, ⟨1, 2, 3⟩⟩
      ⟨none, [], 0, none, false, [], true⟩ "f1" "f2" [] rfl rfl).2.2.2.2.1,
    (claim_C9.2 (fun _ => "") (some "u")
      ⟨"out", "run1", "rp", ⟨"mo", "pr"⟩, ⟨1, 2, 3⟩⟩
      ⟨none, [], 0, none, false, [], true⟩ "f1" "f2" [] rfl rfl).2.2.2.2.2⟩
